import Mathlib

/-!
Verification of the HTTP pipeline retry orchestration of the sampled
azure-sdk-for-python sources.

The embedding covers:

* `AsyncRetryPolicy` from
  `sdk/core/azure-core/azure/core/pipeline/policies/retry_async.py`
  (`send`, `sleep`, `_sleep_for_retry`, `_sleep_backoff`), together with the
  base `RetryPolicy` helpers it calls (`is_retry`, `increment`,
  `get_backoff_time`, `get_retry_after`, `_is_method_retryable`).  The base
  class lives in `retry.py`, which is not among the sampled sources, so those
  helpers are modelled from the specification's description of them.
* `_build_connection_policy` from `sdk/cosmos/azure-cosmos/azure/cosmos/cosmos_client.py`
  (the retry-option keyword handling).
* `_Request` from `sdk/cosmos/azure-cosmos/azure/cosmos/_synchronized_request.py`
  (endpoint-failover URL rewriting, SSL-verification selection, and the
  status-code to error mapping).

Sync and async flavours of the retry policy share this logic; the async
`await transport.sleep` calls are recorded as a list of requested sleep
durations, and the transport / next-policy chain is an oracle assigning an
outcome to every attempt index.
-/

namespace AzurePipeline

/-- Outcome of one transport attempt, as seen by `AsyncRetryPolicy.send`:
either a response with a status code (and an optional parsed `Retry-After`
header value, in seconds), or a raised `ClientAuthenticationError`, or a
raised `AzureError` of connection class or of read class. -/
inductive AttemptOutcome where
  | success (status : Nat) (retryAfter : Option ℚ)
  | authError
  | connectError
  | readError
deriving DecidableEq

/-- The part of a `PipelineResponse` the retry policy inspects: the status
code and the parsed `Retry-After` header value in seconds (`none` when the
header is absent; per the spec the header is either an integer count of
seconds or an HTTP-date, both parsed to a seconds value). -/
structure HttpResponse where
  status : Nat
  retryAfter : Option ℚ
deriving DecidableEq

/-- The mutable per-call retry settings record built by `configure_retries`:
remaining budgets (total / connect / read / status), backoff factor and cap,
the length of the attempt history, and the request's HTTP method together
with whether the caller explicitly marked it idempotent. -/
structure RetrySettings where
  total : Int
  connect : Int
  read : Int
  status : Int
  backoffFactor : ℚ
  backoffMax : ℚ
  historyLen : Nat
  method : String
  callerIdempotent : Bool

/-- Default retry settings, from the `AsyncRetryPolicy` docstring in
`retry_async.py`: retry_total 10, retry_connect 3, retry_read 3,
retry_status 3, retry_backoff_factor 0.8, retry_backoff_max 120. -/
def defaultRetrySettings (method : String) : RetrySettings :=
  { total := 10, connect := 3, read := 3, status := 3,
    backoffFactor := 4/5, backoffMax := 120,
    historyLen := 1, method := method, callerIdempotent := false }

/-- Modelled from the spec: the default retryable status codes of the base
`RetryPolicy` (`retry.py`, not among the sampled sources): 408, 429, 500,
502, 503, 504. -/
def RETRY_STATUS_CODES : List Nat := [408, 429, 500, 502, 503, 504]

/-- Modelled from the spec: `RetryPolicy.is_retry` (`retry.py`, not among
the sampled sources) — a response is retryable when its status code is in
the retryable set. -/
def is_retry (_s : RetrySettings) (resp : HttpResponse) : Bool :=
  decide (resp.status ∈ RETRY_STATUS_CODES)

/-- Modelled from the spec: `RetryPolicy.get_retry_after` (`retry.py`, not
among the sampled sources) — the parsed `Retry-After` header value in
seconds, or `None` when the header is absent. -/
def get_retry_after (resp : HttpResponse) : Option ℚ :=
  resp.retryAfter

/-- Modelled from the spec: `RetryPolicy._is_method_retryable` (`retry.py`,
not among the sampled sources) — an error raised mid-exchange may be retried
only for an HTTP method without side effects on retry (GET, HEAD, OPTIONS),
or one the caller explicitly marked idempotent. -/
def is_method_retryable (s : RetrySettings) : Bool :=
  s.callerIdempotent || decide (s.method ∈ ["GET", "HEAD", "OPTIONS"])

/-- The budget class an attempt outcome is charged against. -/
inductive RetryEventKind where
  | statusEvent
  | connectEvent
  | readEvent
deriving DecidableEq

/-- Modelled from the spec: `RetryPolicy.increment` (`retry.py`, not among
the sampled sources) — decrement the total budget and the event's class
budget, record the attempt in the history, and report whether retrying may
continue (it stops the moment any exhausted budget applies to the current
failure category). -/
def increment (s : RetrySettings) (k : RetryEventKind) : Bool × RetrySettings :=
  match k with
  | .statusEvent =>
      (decide (0 ≤ s.total - 1) && decide (0 ≤ s.status - 1),
       { s with total := s.total - 1, status := s.status - 1,
                historyLen := s.historyLen + 1 })
  | .connectEvent =>
      (decide (0 ≤ s.total - 1) && decide (0 ≤ s.connect - 1),
       { s with total := s.total - 1, connect := s.connect - 1,
                historyLen := s.historyLen + 1 })
  | .readEvent =>
      (decide (0 ≤ s.total - 1) && decide (0 ≤ s.read - 1),
       { s with total := s.total - 1, read := s.read - 1,
                historyLen := s.historyLen + 1 })

theorem increment_snd_total (s : RetrySettings) (k : RetryEventKind) :
    ((increment s k).2).total = s.total - 1 := by
  cases k <;> rfl

theorem increment_fst_total (s : RetrySettings) (k : RetryEventKind)
    (h : (increment s k).1 = true) : 0 ≤ s.total - 1 := by
  cases k <;>
    (simp only [increment, Bool.and_eq_true, decide_eq_true_eq] at h; exact h.1)

/-- Modelled from the spec: `RetryPolicy.get_backoff_time` (`retry.py`, not
among the sampled sources) — exponential backoff
`min(cap, backoff_factor * 2 ** (attempt_number - 1))`, the cap being a hard
ceiling applied after the exponential computation.  The attempt number is
the recorded history length of the settings. -/
def get_backoff_time (s : RetrySettings) : ℚ :=
  min s.backoffMax (s.backoffFactor * 2 ^ (s.historyLen - 1))

/-- `AsyncRetryPolicy._sleep_for_retry` (`retry_async.py` lines 80-91):
sleep for the `Retry-After` header value when that value is truthy, and
report whether a sleep occurred.  Returns the list of requested
`transport.sleep` durations together with the reported Boolean; a parsed
value of `0` is falsy in Python, so no sleep occurs and `False` is
reported. -/
def sleep_for_retry (resp : HttpResponse) : List ℚ × Bool :=
  match get_retry_after resp with
  | some v => if v ≠ 0 then ([v], true) else ([], false)
  | none => ([], false)

/-- `AsyncRetryPolicy._sleep_backoff` (`retry_async.py` lines 93-102):
sleep for the exponential backoff duration, immediately returning (no
`transport.sleep` call) when the backoff is `<= 0`. -/
def sleep_backoff (s : RetrySettings) : List ℚ :=
  let backoff := get_backoff_time s
  if backoff ≤ 0 then [] else [backoff]

/-- `AsyncRetryPolicy.sleep` (`retry_async.py` lines 104-121): when a
response is given and `_sleep_for_retry` slept on its `Retry-After` value,
return; otherwise fall back to `_sleep_backoff`. -/
def sleep (s : RetrySettings) (resp : Option HttpResponse) : List ℚ :=
  match resp with
  | some r =>
      let fr := sleep_for_retry r
      if fr.2 then fr.1 else fr.1 ++ sleep_backoff s
  | none => sleep_backoff s

/-- Result of a logical call through `AsyncRetryPolicy.send`: a returned
response, or a propagated `ClientAuthenticationError`, or a re-raised
`AzureError` of connection or read class. -/
inductive SendResult where
  | ok (resp : HttpResponse)
  | raisedAuth
  | raisedConnect
  | raisedRead
deriving DecidableEq

/-- `AsyncRetryPolicy.send` (`retry_async.py` lines 123-158).  The next
policy in the pipeline is an oracle mapping each attempt index to its
outcome; `attempt` is the index of the current attempt.  Returns the result
of the logical call together with the number of transport attempts
performed.  Mirrors the source loop: a retryable response decrements budgets
via `increment` and loops while retrying is active, otherwise breaks and
returns the (last) response; a `ClientAuthenticationError` is re-raised at
once; any other `AzureError` is retried only when the method is retryable
and budgets remain, and re-raised otherwise.  The `sleep` calls between
attempts do not affect control flow. -/
def send (oracle : Nat → AttemptOutcome) (attempt : Nat) (s : RetrySettings) :
    SendResult × Nat :=
  match oracle attempt with
  | .success st ra =>
      if is_retry s ⟨st, ra⟩ then
        if h : (increment s .statusEvent).1 = true then
          let r := send oracle (attempt + 1) (increment s .statusEvent).2
          (r.1, r.2 + 1)
        else
          (.ok ⟨st, ra⟩, 1)
      else
        (.ok ⟨st, ra⟩, 1)
  | .authError => (.raisedAuth, 1)
  | .connectError =>
      if is_method_retryable s then
        if h : (increment s .connectEvent).1 = true then
          let r := send oracle (attempt + 1) (increment s .connectEvent).2
          (r.1, r.2 + 1)
        else
          (.raisedConnect, 1)
      else
        (.raisedConnect, 1)
  | .readError =>
      if is_method_retryable s then
        if h : (increment s .readEvent).1 = true then
          let r := send oracle (attempt + 1) (increment s .readEvent).2
          (r.1, r.2 + 1)
        else
          (.raisedRead, 1)
      else
        (.raisedRead, 1)
termination_by s.total.toNat
decreasing_by
  all_goals
    have h1 := increment_fst_total _ _ h
    rw [increment_snd_total]
    omega

end AzurePipeline

namespace AzurePipeline

/-- C3 (amended): for every retry wait where the response carries a
`Retry-After` header parsing to a positive value, the sleep duration is
exactly that value and the exponential backoff formula is not used for that
attempt; a header value of `0`, however, does not take precedence over the
computed backoff. -/
theorem retry_after_positive_takes_precedence
    (s : RetrySettings) (st : Nat) (v : ℚ) (hv : 0 < v) :
    sleep_for_retry ⟨st, some v⟩ = ([v], true) ∧
    sleep s (some ⟨st, some v⟩) = [v] := by
  have hne : v ≠ 0 := ne_of_gt hv
  constructor
  · simp [sleep_for_retry, get_retry_after, hne]
  · simp [sleep, sleep_for_retry, get_retry_after, hne]

theorem retry_after_positive_takes_precedence_witness :
    sleep_for_retry ⟨429, some 5⟩ = ([5], true) ∧
    sleep (defaultRetrySettings "GET") (some ⟨429, some 5⟩) = [5] :=
  retry_after_positive_takes_precedence (defaultRetrySettings "GET") 429 5
    (by norm_num)

/-- C3 counterexample: a response carrying the header `Retry-After: 0`
(an integer-seconds header, parsed to `0`) does not take precedence — with
backoff factor 1 and two attempts recorded, `sleep` requests the exponential
backoff duration 2, not the header value 0. -/
theorem retry_after_zero_no_precedence :
    sleep { total := 10, connect := 3, read := 3, status := 3,
            backoffFactor := 1, backoffMax := 120, historyLen := 2,
            method := "GET", callerIdempotent := false }
        (some ⟨429, some 0⟩) = [2] ∧
    ([2] : List ℚ) ≠ [0] := by
  constructor
  · simp [sleep, sleep_for_retry, get_retry_after, sleep_backoff,
          get_backoff_time]
    norm_num
  · simp

/-- C9: a `Retry-After` header that parses to `0` is not treated as a
server-specified wait: `_sleep_for_retry` makes no sleep call and reports
`False`, so `sleep` falls back to the exponential backoff for that
attempt. -/
theorem retry_after_zero_falls_back_to_backoff (s : RetrySettings) (st : Nat) :
    sleep_for_retry ⟨st, some 0⟩ = ([], false) ∧
    sleep s (some ⟨st, some 0⟩) = sleep_backoff s := by
  constructor
  · simp [sleep_for_retry, get_retry_after]
  · simp [sleep, sleep_for_retry, get_retry_after]

/-- C4: in the absence of a `Retry-After` header the wait before a retry is
`min(backoff_cap, backoff_factor * 2 ** (attempt_number - 1))`: the backoff
never exceeds the cap, it equals the raw exponential value whenever that
value is within the cap (the cap is a ceiling applied after the exponential
computation), and a backoff factor of 0 yields zero delay — `_sleep_backoff`
makes no `transport.sleep` call at all. -/
theorem backoff_formula_and_zero_factor (s : RetrySettings) :
    get_backoff_time s =
      min s.backoffMax (s.backoffFactor * 2 ^ (s.historyLen - 1)) ∧
    get_backoff_time s ≤ s.backoffMax ∧
    (s.backoffFactor * 2 ^ (s.historyLen - 1) ≤ s.backoffMax →
      get_backoff_time s = s.backoffFactor * 2 ^ (s.historyLen - 1)) ∧
    (s.backoffFactor = 0 → sleep_backoff s = []) := by
  refine ⟨rfl, min_le_left _ _, fun h => min_eq_right h, fun h0 => ?_⟩
  have hb : get_backoff_time s ≤ 0 := by
    rw [get_backoff_time, h0, zero_mul]
    exact min_le_right _ _
  simp [sleep_backoff, hb]

theorem backoff_formula_and_zero_factor_witness :
    get_backoff_time
      { total := 10, connect := 3, read := 3, status := 3,
        backoffFactor := 1/2, backoffMax := 120, historyLen := 3,
        method := "GET", callerIdempotent := false } = 2 ∧
    sleep_backoff
      { total := 10, connect := 3, read := 3, status := 3,
        backoffFactor := 0, backoffMax := 120, historyLen := 3,
        method := "GET", callerIdempotent := false } = [] := by
  constructor
  · rw [(backoff_formula_and_zero_factor _).2.2.1 (by norm_num)]
    norm_num
  · exact (backoff_formula_and_zero_factor _).2.2.2 rfl

end AzurePipeline

namespace Cosmos

open AzurePipeline

/-- The retry-count line of `_build_connection_policy` (`cosmos_client.py`
lines 98-100): `retry._max_retry_attempt_count = kwargs.pop('retry_total',
None) or retry._max_retry_attempt_count`.  `retryTotalKwarg` is the
`retry_total` keyword (`none` when absent) and `existing` the count already
held by the retry options.  Python's `or` keeps the existing count whenever
the popped value is falsy, i.e. `None` or `0`. -/
def buildRetryMaxAttempts (retryTotalKwarg : Option Nat) (existing : Nat) : Nat :=
  match retryTotalKwarg with
  | none => existing
  | some v => if v ≠ 0 then v else existing

/-- Python `str.replace` over character lists, as used by `_Request`
(`_synchronized_request.py` line 106):
`request.url = request.url.replace(pipeline_client._base_url, base_url)`.
Scans left to right and replaces every non-overlapping occurrence of `pat`
by `rep`.  The callers always pass a non-empty base URL as `pat`; for an
empty `pat` this model returns `s` unchanged (Python would interleave `rep`
between the characters, a case that cannot arise here).  The first argument
is a step bound, making the recursion structural; `strReplace` below passes
`s.length`, which always suffices. -/
def strReplaceAux : Nat → List Char → List Char → List Char → List Char
  | 0, s, _, _ => s
  | _ + 1, [], _, _ => []
  | fuel + 1, c :: cs, pat, rep =>
      if pat = [] then c :: cs
      else if pat.isPrefixOf (c :: cs) then
        rep ++ strReplaceAux fuel ((c :: cs).drop pat.length) pat rep
      else
        c :: strReplaceAux fuel cs pat rep

/-- Entry point: replacing every occurrence consumes at least one character
of `s` per step, so `s.length` steps always suffice and the fuel cutoff of
`strReplaceAux` is never reached. -/
def strReplace (s pat rep : List Char) : List Char :=
  strReplaceAux s.length s pat rep

theorem strReplaceAux_no_occurrence (pat rep : List Char) :
    ∀ (fuel : Nat) (s : List Char), ¬ pat <:+: s →
      strReplaceAux fuel s pat rep = s := by
  intro fuel
  induction fuel with
  | zero => intro s _; rfl
  | succ f ih =>
      intro s h
      cases s with
      | nil => rfl
      | cons c cs =>
          by_cases hpat : pat = []
          · simp [strReplaceAux, hpat]
          · have hpre : ¬ (pat.isPrefixOf (c :: cs) = true) := by
              rw [List.isPrefixOf_iff_prefix]
              exact fun hp => h hp.isInfix
            have hcs : ¬ pat <:+: cs := fun hx => h (List.infix_cons hx)
            simp only [strReplaceAux, if_neg hpat, if_neg hpre]
            rw [ih cs hcs]

theorem strReplaceAux_pat_append (pat rep rest : List Char) (hpat : pat ≠ [])
    (f : Nat) (hocc : ¬ pat <:+: rest) :
    strReplaceAux (f + 1) (pat ++ rest) pat rep = rep ++ rest := by
  cases pat with
  | nil => exact absurd rfl hpat
  | cons p ps =>
      have hpre : (p :: ps).isPrefixOf (p :: (ps ++ rest)) = true := by
        rw [List.isPrefixOf_iff_prefix]
        exact List.prefix_append _ _
      show strReplaceAux (f + 1) (p :: (ps ++ rest)) (p :: ps) rep = rep ++ rest
      simp only [strReplaceAux, if_neg (List.cons_ne_nil p ps), hpre, if_pos]
      rw [show p :: (ps ++ rest) = (p :: ps) ++ rest from rfl, List.drop_left]
      rw [strReplaceAux_no_occurrence (p :: ps) rep f rest hocc]

/-- C7 (amended): when the pipeline client's base URL occurs in the request
URL only as its leading prefix, the failover rewrite of line 106 — Python
`url.replace(base_url, new_base_url)` — replaces exactly that prefix, so
path and query are preserved and only the base (scheme and host) changes.
In general `str.replace` rewrites every occurrence, so a base URL that also
occurs later in the URL (in path or query) is rewritten there as well. -/
theorem failover_rewrite_preserves_path_query
    (base nb rest : List Char) (hbase : base ≠ []) (hdiff : nb ≠ base)
    (hocc : ¬ base <:+: rest) :
    strReplace (base ++ rest) base nb = nb ++ rest := by
  have hlen : (base ++ rest).length ≠ 0 := by
    cases base with
    | nil => exact absurd rfl hbase
    | cons b bs => simp
  obtain ⟨f, hf⟩ := Nat.exists_eq_succ_of_ne_zero hlen
  rw [strReplace, hf]
  exact strReplaceAux_pat_append base nb rest hbase f hocc

theorem failover_rewrite_preserves_path_query_witness :
    strReplace ("https://a.example".toList ++ "/dbs/db1/colls?x=1".toList)
        "https://a.example".toList "https://b.example".toList =
      "https://b.example".toList ++ "/dbs/db1/colls?x=1".toList :=
  failover_rewrite_preserves_path_query "https://a.example".toList
    "https://b.example".toList "/dbs/db1/colls?x=1".toList
    (by decide) (by decide) (by decide)

/-- C7 counterexample: for the request URL `http://a/x?u=http://a`, base URL
`http://a` and resolved base URL `http://b`, line 106's
`url.replace(base_url, new_base_url)` also rewrites the occurrence inside
the query: the result is `http://b/x?u=http://b`, which is not the new base
followed by the original path+query `/x?u=http://a` — the query changed. -/
theorem failover_rewrite_alters_query :
    strReplace "http://a/x?u=http://a".toList "http://a".toList
        "http://b".toList = "http://b/x?u=http://b".toList ∧
    "http://b/x?u=http://b".toList ≠
      "http://b".toList ++ "/x?u=http://a".toList := by
  constructor
  · decide
  · decide

/-- The specific error kinds raised by `_Request`
(`_synchronized_request.py` lines 156-163). -/
inductive CosmosError where
  | resourceNotFound
  | resourceExists
  | accessConditionFailed
  | httpResponseError
deriving DecidableEq

/-- The status-code to error mapping of `_Request`
(`_synchronized_request.py` lines 156-163): 404 raises
`CosmosResourceNotFoundError`, 409 `CosmosResourceExistsError`, 412
`CosmosAccessConditionFailedError`, any other status `>= 400`
`CosmosHttpResponseError`; a status below 400 raises nothing. -/
def cosmosStatusError (status : Nat) : Option CosmosError :=
  if status = 404 then some .resourceNotFound
  else if status = 409 then some .resourceExists
  else if status = 412 then some .accessConditionFailed
  else if 400 ≤ status then some .httpResponseError
  else none

/-- Modelled from the spec: whether the retry layer wrapped around
`_Request` (`_retry_utility.Execute`, not among the sampled sources, plus
the pipeline retry policy) retries a failure carrying the given status
code — retryable status codes are retried against the status budget, while
resource-state statuses (404/409/412) are never retried. -/
def cosmosRetriesStatus (status : Nat) : Bool :=
  decide (status ∈ RETRY_STATUS_CODES)

/-- The `is_ssl_enabled` expression of `_Request`
(`_synchronized_request.py` lines 116-120): SSL verification is enabled
unless the URL hostname is `localhost` or `127.0.0.1` or the connection
policy disables SSL verification. -/
def is_ssl_enabled (hostname : String) (disableSSLVerification : Bool) : Bool :=
  decide (hostname ≠ "localhost") && decide (hostname ≠ "127.0.0.1")
    && !disableSSLVerification

/-- The `connection_verify` argument handed to `pipeline.run`: either a
Boolean verification flag or a CA-certificate bundle. -/
inductive ConnVerify where
  | boolVerify (b : Bool)
  | caVerify (caCerts : Option String)
deriving DecidableEq

/-- The `connection_verify` value `_Request` passes to
`pipeline_client._pipeline.run` (`_synchronized_request.py` lines 122-141):
when the connection policy has an SSL configuration or a `connection_cert`
keyword is present, `kwargs.pop("connection_verify", ca_certs)`; otherwise
`kwargs.pop("connection_verify", is_ssl_enabled)`. -/
def pipelineConnectionVerify (hasSSLConfigOrCert : Bool) (caCerts : Option String)
    (connVerifyKwarg : Option Bool) (hostname : String)
    (disableSSLVerification : Bool) : ConnVerify :=
  if hasSSLConfigOrCert then
    match connVerifyKwarg with
    | some v => .boolVerify v
    | none => .caVerify caCerts
  else
    match connVerifyKwarg with
    | some v => .boolVerify v
    | none => .boolVerify (is_ssl_enabled hostname disableSSLVerification)

end Cosmos

namespace AzurePipeline

/-- C1: if any attempt of a logical call through `AsyncRetryPolicy.send`
raises a `ClientAuthenticationError`, the error propagates to the caller
immediately with zero additional attempts (exactly the raising attempt is
performed from that point), regardless of the remaining retry budgets. -/
theorem auth_error_propagates_immediately
    (oracle : Nat → AttemptOutcome) (attempt : Nat) (s : RetrySettings)
    (h : oracle attempt = AttemptOutcome.authError) :
    send oracle attempt s = (SendResult.raisedAuth, 1) := by
  unfold send
  rw [h]

theorem auth_error_propagates_immediately_witness :
    send (fun _ => AttemptOutcome.authError) 0 (defaultRetrySettings "GET") =
      (SendResult.raisedAuth, 1) :=
  auth_error_propagates_immediately (fun _ => AttemptOutcome.authError) 0
    (defaultRetrySettings "GET") rfl

/-- C2: when retries are exhausted, `AsyncRetryPolicy.send` returns the last
obtained response if the final event was a retryable-status response, but
re-raises the last error if the final event was a raised exception — the two
exhaustion paths are asymmetric. -/
theorem exhaustion_paths_asymmetric
    (oracle oracle2 : Nat → AttemptOutcome) (k k2 : Nat) (s : RetrySettings)
    (st : Nat) (ra : Option ℚ)
    (hresp : oracle k = AttemptOutcome.success st ra)
    (hretry : is_retry s ⟨st, ra⟩ = true)
    (hexh : (increment s RetryEventKind.statusEvent).1 = false)
    (herr : oracle2 k2 = AttemptOutcome.readError)
    (hm : is_method_retryable s = true)
    (hexh2 : (increment s RetryEventKind.readEvent).1 = false) :
    send oracle k s = (SendResult.ok ⟨st, ra⟩, 1) ∧
    send oracle2 k2 s = (SendResult.raisedRead, 1) := by
  constructor
  · unfold send
    rw [hresp]
    simp [hretry, hexh]
  · unfold send
    rw [herr]
    simp [hm, hexh2]

theorem exhaustion_paths_asymmetric_witness :
    send (fun _ => AttemptOutcome.success 503 none) 0
        { defaultRetrySettings "GET" with total := 0 } =
      (SendResult.ok ⟨503, none⟩, 1) ∧
    send (fun _ => AttemptOutcome.readError) 0
        { defaultRetrySettings "GET" with total := 0 } =
      (SendResult.raisedRead, 1) :=
  exhaustion_paths_asymmetric _ _ 0 0 _ 503 none rfl (by decide) (by decide)
    rfl (by decide) (by decide)

/-- C5: a request with a method that is not retry-safe (e.g. POST, not
explicitly marked idempotent) whose attempt raises a read-class error is not
retried: `AsyncRetryPolicy.send` re-raises the error after that single
attempt, even when the read budget is positive. -/
theorem non_idempotent_read_error_raises
    (oracle : Nat → AttemptOutcome) (k : Nat) (s : RetrySettings)
    (hm : is_method_retryable s = false)
    (ho : oracle k = AttemptOutcome.readError)
    (hbudget : 0 < s.read) :
    send oracle k s = (SendResult.raisedRead, 1) := by
  unfold send
  rw [ho]
  simp [hm]

theorem non_idempotent_read_error_raises_witness :
    send (fun _ => AttemptOutcome.readError) 0 (defaultRetrySettings "POST") =
      (SendResult.raisedRead, 1) :=
  non_idempotent_read_error_raises (fun _ => AttemptOutcome.readError) 0
    (defaultRetrySettings "POST") (by decide) rfl (by decide)

/-- C6 (amended): with a total budget of zero in the retry settings,
`AsyncRetryPolicy.send` performs exactly one transport attempt regardless of
the attempt's outcome; the CosmosClient keyword override `retry_total=0`,
however, is ignored by `_build_connection_policy`, which keeps the existing
maximum retry attempt count. -/
theorem retry_total_zero_single_attempt
    (oracle : Nat → AttemptOutcome) (k : Nat) (s : RetrySettings)
    (h : s.total = 0) :
    (send oracle k s).2 = 1 ∧
    ∀ existing, Cosmos.buildRetryMaxAttempts (some 0) existing = existing := by
  refine ⟨?_, fun existing => rfl⟩
  have hinc : ∀ kk, (increment s kk).1 = false := by
    intro kk
    cases kk <;> simp [increment, h]
  unfold send
  cases ho : oracle k <;> simp [hinc]

theorem retry_total_zero_single_attempt_witness :
    (send (fun _ => AttemptOutcome.success 500 none) 0
        { defaultRetrySettings "GET" with total := 0 }).2 = 1 ∧
    ∀ existing, Cosmos.buildRetryMaxAttempts (some 0) existing = existing :=
  retry_total_zero_single_attempt (fun _ => AttemptOutcome.success 500 none) 0
    { defaultRetrySettings "GET" with total := 0 } rfl

theorem increment_snd_status (s : RetrySettings) :
    ((increment s RetryEventKind.statusEvent).2).status = s.status - 1 := rfl

/-- Attempt count of `send` against a transport that always answers with a
fixed retryable status: with total budget `n` and at least `n` in the status
budget, the logical call performs exactly `n + 1` attempts. -/
theorem send_const_status_count (st : Nat) (ra : Option ℚ)
    (hr : st ∈ RETRY_STATUS_CODES) :
    ∀ (n : Nat) (k : Nat) (s : RetrySettings),
      s.total = (n : Int) → (n : Int) ≤ s.status →
      (send (fun _ => AttemptOutcome.success st ra) k s).2 = n + 1 := by
  intro n
  induction n with
  | zero =>
      intro k s htot hst
      have hR : is_retry s ⟨st, ra⟩ = true := by simp [is_retry, hr]
      have hI : (increment s RetryEventKind.statusEvent).1 = false := by
        simp [increment, htot]
      unfold send
      simp [hR, hI]
  | succ n ih =>
      intro k s htot hst
      have hR : is_retry s ⟨st, ra⟩ = true := by simp [is_retry, hr]
      have hI : (increment s RetryEventKind.statusEvent).1 = true := by
        simp only [increment, Bool.and_eq_true, decide_eq_true_eq]
        refine ⟨by omega, by omega⟩
      have hIH := ih (k + 1) (increment s RetryEventKind.statusEvent).2
        (by rw [increment_snd_total]; omega)
        (by rw [increment_snd_status]; omega)
      unfold send
      simp [hR, hI, hIH]

/-- C6 counterexample: `_build_connection_policy` drops the CosmosClient
keyword `retry_total=0` (Python's `0 or existing` keeps the existing count),
so a client whose retry options hold the default 9 maximum retry attempts
stays at 9, and a logical call against an always-429 transport performs 10
attempts, not 1. -/
theorem cosmos_retry_total_zero_ignored :
    Cosmos.buildRetryMaxAttempts (some 0) 9 = 9 ∧
    (send (fun _ => AttemptOutcome.success 429 none) 0
        { total := 9, connect := 3, read := 3, status := 9,
          backoffFactor := 4/5, backoffMax := 120, historyLen := 1,
          method := "GET", callerIdempotent := false }).2 = 10 ∧
    (10 : Nat) ≠ 1 := by
  refine ⟨rfl, ?_, by decide⟩
  exact send_const_status_count 429 none (by decide) 9 0 _ rfl (by decide)

end AzurePipeline

namespace Cosmos

open AzurePipeline

/-- C8 (amended): for every non-media response obtained by `_Request`,
status 404 raises `CosmosResourceNotFoundError`, 409
`CosmosResourceExistsError`, 412 `CosmosAccessConditionFailedError`, and any
other status `>= 400` raises `CosmosHttpResponseError`, while statuses below
400 raise nothing; the resource-state statuses 404, 409 and 412 are never
retried by the retry layer, but a raised status in the retryable set (408,
429, 500, 502, 503, 504) is retried rather than surfaced immediately. -/
theorem cosmos_status_error_mapping :
    cosmosStatusError 404 = some CosmosError.resourceNotFound ∧
    cosmosStatusError 409 = some CosmosError.resourceExists ∧
    cosmosStatusError 412 = some CosmosError.accessConditionFailed ∧
    (∀ st, 400 ≤ st → st ≠ 404 → st ≠ 409 → st ≠ 412 →
      cosmosStatusError st = some CosmosError.httpResponseError) ∧
    (∀ st, st < 400 → cosmosStatusError st = none) ∧
    cosmosRetriesStatus 404 = false ∧
    cosmosRetriesStatus 409 = false ∧
    cosmosRetriesStatus 412 = false := by
  refine ⟨rfl, rfl, rfl, ?_, ?_, rfl, rfl, rfl⟩
  · intro st h400 h404 h409 h412
    rw [cosmosStatusError, if_neg h404, if_neg h409, if_neg h412, if_pos h400]
  · intro st hlt
    rw [cosmosStatusError, if_neg (by omega : st ≠ 404),
      if_neg (by omega : st ≠ 409), if_neg (by omega : st ≠ 412),
      if_neg (by omega : ¬ 400 ≤ st)]

theorem cosmos_status_error_mapping_witness :
    cosmosStatusError 500 = some CosmosError.httpResponseError ∧
    cosmosStatusError 200 = none :=
  ⟨cosmos_status_error_mapping.2.2.2.1 500 (by decide) (by decide) (by decide)
      (by decide),
   cosmos_status_error_mapping.2.2.2.2.1 200 (by decide)⟩

/-- C8 counterexample: the status 429 also satisfies `>= 400` and raises
`CosmosHttpResponseError` (lines 162-163), but 429 is a retryable status:
the retry layer retries it instead of surfacing it immediately without
retry — concretely, a retry policy with one remaining total retry performs
2 attempts against an always-429 transport, not 1. -/
theorem cosmos_status_429_retried :
    cosmosStatusError 429 = some CosmosError.httpResponseError ∧
    cosmosRetriesStatus 429 = true ∧
    (send (fun _ => AttemptOutcome.success 429 none) 0
        { total := 1, connect := 3, read := 3, status := 3,
          backoffFactor := 4/5, backoffMax := 120, historyLen := 1,
          method := "GET", callerIdempotent := false }).2 = 2 ∧
    (2 : Nat) ≠ 1 := by
  refine ⟨rfl, rfl, ?_, by decide⟩
  exact send_const_status_count 429 none (by decide) 1 0 _ rfl (by decide)

/-- C10 counterexample: with hostname `localhost`, no SSL configuration and
no `connection_cert` keyword, an explicit `connection_verify=True` keyword
is popped and passed through: the pipeline is invoked with
`connection_verify=True`, not `False`. -/
theorem localhost_explicit_verify_overrides :
    pipelineConnectionVerify false none (some true) "localhost" false =
      ConnVerify.boolVerify true ∧
    ConnVerify.boolVerify true ≠ ConnVerify.boolVerify false := by
  exact ⟨rfl, by decide⟩

/-- C10 (amended): for a Cosmos request without an explicit SSL
configuration, connection certificate or `connection_verify` keyword, the
pipeline is invoked with `connection_verify = is_ssl_enabled`, which is
`False` exactly when the URL hostname is `localhost` or `127.0.0.1` or
`DisableSSLVerification` is set, and `True` for every other hostname. -/
theorem loopback_disables_tls_verification (hostname : String) (disable : Bool) :
    pipelineConnectionVerify false none none hostname disable =
      ConnVerify.boolVerify (is_ssl_enabled hostname disable) ∧
    (is_ssl_enabled hostname disable = false ↔
      hostname = "localhost" ∨ hostname = "127.0.0.1" ∨ disable = true) := by
  refine ⟨rfl, ?_⟩
  rw [is_ssl_enabled]
  cases disable <;> by_cases h1 : hostname = "localhost" <;>
    by_cases h2 : hostname = "127.0.0.1" <;> simp [h1, h2]

end Cosmos
